import Mathlib

/-!
Verification development for the budgetBuddy backend.

The repository declares a relational schema (`src/main/models/sqlModels.py`)
with SQLModel: tables User, Trip, TripParticipantLink, TripDay, Activity,
Expense and PersonalExpense, together with uniqueness constraints
(`unique=True` on `User.username`, `User.email`, `Trip.invitation_code`),
foreign keys, a composite primary key on the association table, and
cascade-delete relationships (`cascade: all, delete-orphan` on `Trip.days`,
`Trip.expenses`, `TripDay.activities`, `User.personal_expenses`).  It also
exposes two constant HTTP endpoints (`src/main/app.py`).

The rows and the constraint data below are embedded from that source file.
The repository itself contains no insert/delete procedures: writes are
performed by the storage engine that enforces the declared schema.  Those
operations are therefore modelled from the specification's contract
(spec §3 lifecycle and §4.1 "public contract"), each marked
`Modelled from the spec:` in its doc comment.  State is passed explicitly
and a failing operation returns an error without returning any store, so
the all-or-nothing (single transaction) character of every write is
structural in the model.

Datetimes are abstracted as `Nat` (only their identity and order matter to
the schema), and monetary `float` amounts as `Int` (no claim depends on
floating-point behaviour).
-/

namespace BudgetBuddy

/-- Embeds `UserRole` of `sqlModels.py`: the roles a user can have within
the context of a trip. -/
inductive UserRole where
  | moderator
  | participant
deriving DecidableEq

/-- Embeds `TripStatus` of `sqlModels.py`: the possible lifecycle states of
a trip. -/
inductive TripStatus where
  | planning
  | active
  | completed
  | cancelled
deriving DecidableEq

/-- Embeds table `user` of `sqlModels.py`.  `username` and `email` are
declared `unique=True`; `id` is the (autoincrement) primary key. -/
structure User where
  id : Nat
  username : String
  email : String
  full_name : Option String
  phone : Option String
  hashed_password : String
  is_active : Bool
  created_at : Nat
  updated_at : Nat
deriving DecidableEq

/-- Embeds table `trip` of `sqlModels.py`.  `invitation_code` is declared
`unique=True`; `moderator_id` is a foreign key into `user`; `status` is the
`TripStatus` enum column. -/
structure Trip where
  id : Nat
  title : String
  description : Option String
  destination : String
  start_date : Nat
  end_date : Nat
  estimated_budget : Option Int
  actual_budget : Int
  invitation_code : String
  status : TripStatus
  created_at : Nat
  updated_at : Nat
  moderator_id : Nat
deriving DecidableEq

/-- Embeds table `tripparticipantlink` of `sqlModels.py`: association table
between users and trips, with composite primary key `(trip_id, user_id)`,
both columns foreign keys. -/
structure TripParticipantLink where
  trip_id : Nat
  user_id : Nat
  joined_at : Nat
  is_active : Bool
deriving DecidableEq

/-- Embeds table `tripday` of `sqlModels.py`.  `trip_id` is a foreign key
into `trip`; `day_number` carries no uniqueness constraint. -/
structure TripDay where
  id : Nat
  day_number : Nat
  date : Nat
  title : Option String
  description : Option String
  trip_id : Nat
deriving DecidableEq

/-- Embeds table `activity` of `sqlModels.py`.  `day_id` is a foreign key
into `tripday`; `start_time` is required, `end_time` optional, and no
constraint relates the two. -/
structure Activity where
  id : Nat
  name : String
  description : Option String
  start_time : Nat
  end_time : Option Nat
  tag : String
  location : Option String
  notes : Option String
  day_id : Nat
deriving DecidableEq

/-- Embeds table `expense` of `sqlModels.py`.  `trip_id` and `payer_id` are
required foreign keys; `activity_id` is an optional foreign key into
`activity`. -/
structure Expense where
  id : Nat
  description : String
  amount : Int
  receipt_url : Option String
  created_at : Nat
  trip_id : Nat
  payer_id : Nat
  activity_id : Option Nat
deriving DecidableEq

/-- Embeds table `personalexpense` of `sqlModels.py`.  `user_id` is a
required foreign key into `user`. -/
structure PersonalExpense where
  id : Nat
  title : String
  description : Option String
  amount : Int
  date : Nat
  user_id : Nat
deriving DecidableEq

/-- The relational store: one list of rows per table declared in
`sqlModels.py`. -/
structure Store where
  users : List User
  trips : List Trip
  links : List TripParticipantLink
  trip_days : List TripDay
  activities : List Activity
  expenses : List Expense
  personal_expenses : List PersonalExpense
deriving DecidableEq

/-- The empty store: every table empty. -/
def Store.empty : Store :=
  { users := [], trips := [], links := [], trip_days := [],
    activities := [], expenses := [], personal_expenses := [] }

/-- Error taxonomy of the data-model contract (spec §7): validation,
uniqueness, referential integrity, plus absence of the targeted row for a
delete. -/
inductive DBError where
  | UniquenessViolation
  | ReferentialIntegrityError
  | ValidationError
  | NotFound
deriving DecidableEq

/-- Next autoincrement primary-key value for a list of existing ids
(`id: Optional[int] = Field(default=None, primary_key=True)` in the
source: the engine assigns a fresh id on insert). -/
def freshId (ids : List Nat) : Nat :=
  ids.foldr (fun i m => max i m) 0 + 1

/-- Whether a user row with the given primary key exists. -/
def Store.hasUser (s : Store) (i : Nat) : Bool :=
  s.users.any (fun u => u.id == i)

/-- Whether a trip row with the given primary key exists. -/
def Store.hasTrip (s : Store) (i : Nat) : Bool :=
  s.trips.any (fun t => t.id == i)

/-- Whether a trip-day row with the given primary key exists. -/
def Store.hasTripDay (s : Store) (i : Nat) : Bool :=
  s.trip_days.any (fun d => d.id == i)

/-- Whether an activity row with the given primary key exists. -/
def Store.hasActivity (s : Store) (i : Nat) : Bool :=
  s.activities.any (fun a => a.id == i)

/-- Modelled from the spec: the insert operation for `User` (the repository
declares only the schema; spec §3 lifecycle, §4.1 uniqueness contract).
A duplicate `username` or `email` (both `unique=True` in the source) fails
with `UniquenessViolation`; the row is stored with a fresh primary key. -/
def insertUser (s : Store) (u : User) : Except DBError Store :=
  if s.users.any (fun v => v.username == u.username) then
    .error .UniquenessViolation
  else if s.users.any (fun v => v.email == u.email) then
    .error .UniquenessViolation
  else
    .ok { s with users := s.users ++ [{ u with id := freshId (s.users.map User.id) }] }

/-- Modelled from the spec: the insert operation for `Trip`.  A duplicate
`invitation_code` (`unique=True` in the source) fails with
`UniquenessViolation`; a `moderator_id` naming no existing user (foreign
key `user.id`) fails with `ReferentialIntegrityError`. -/
def insertTrip (s : Store) (t : Trip) : Except DBError Store :=
  if s.trips.any (fun v => v.invitation_code == t.invitation_code) then
    .error .UniquenessViolation
  else if !(s.hasUser t.moderator_id) then
    .error .ReferentialIntegrityError
  else
    .ok { s with trips := s.trips ++ [{ t with id := freshId (s.trips.map Trip.id) }] }

/-- Modelled from the spec: the insert operation for the association table.
A second row with the same composite primary key `(trip_id, user_id)` fails
with `UniquenessViolation`; a dangling `trip_id` or `user_id` fails with
`ReferentialIntegrityError`. -/
def insertTripParticipantLink (s : Store) (l : TripParticipantLink) :
    Except DBError Store :=
  if s.links.any (fun x => x.trip_id == l.trip_id && x.user_id == l.user_id) then
    .error .UniquenessViolation
  else if !(s.hasTrip l.trip_id) then
    .error .ReferentialIntegrityError
  else if !(s.hasUser l.user_id) then
    .error .ReferentialIntegrityError
  else
    .ok { s with links := s.links ++ [l] }

/-- Modelled from the spec: the insert operation for `TripDay`.  A
`trip_id` naming no existing trip (foreign key `trip.id`) fails with
`ReferentialIntegrityError`.  No constraint restricts `day_number`. -/
def insertTripDay (s : Store) (d : TripDay) : Except DBError Store :=
  if !(s.hasTrip d.trip_id) then
    .error .ReferentialIntegrityError
  else
    .ok { s with trip_days := s.trip_days ++ [{ d with id := freshId (s.trip_days.map TripDay.id) }] }

/-- Modelled from the spec: the insert operation for `Activity`.  A
`day_id` naming no existing trip day (foreign key `tripday.id`) fails with
`ReferentialIntegrityError`.  No constraint relates `start_time` and
`end_time`. -/
def insertActivity (s : Store) (a : Activity) : Except DBError Store :=
  if !(s.hasTripDay a.day_id) then
    .error .ReferentialIntegrityError
  else
    .ok { s with activities := s.activities ++ [{ a with id := freshId (s.activities.map Activity.id) }] }

/-- Modelled from the spec: the insert operation for `Expense`.  A dangling
`trip_id`, `payer_id`, or present-but-dangling `activity_id` (foreign keys
in the source) fails with `ReferentialIntegrityError`. -/
def insertExpense (s : Store) (e : Expense) : Except DBError Store :=
  if !(s.hasTrip e.trip_id) then
    .error .ReferentialIntegrityError
  else if !(s.hasUser e.payer_id) then
    .error .ReferentialIntegrityError
  else if e.activity_id.any (fun a => !(s.hasActivity a)) then
    .error .ReferentialIntegrityError
  else
    .ok { s with expenses := s.expenses ++ [{ e with id := freshId (s.expenses.map Expense.id) }] }

/-- Modelled from the spec: the insert operation for `PersonalExpense`.  A
dangling `user_id` (foreign key `user.id`) fails with
`ReferentialIntegrityError`. -/
def insertPersonalExpense (s : Store) (p : PersonalExpense) :
    Except DBError Store :=
  if !(s.hasUser p.user_id) then
    .error .ReferentialIntegrityError
  else
    .ok { s with personal_expenses :=
            s.personal_expenses ++ [{ p with id := freshId (s.personal_expenses.map PersonalExpense.id) }] }

/-- Modelled from the spec: the delete operation for `Trip` (§4.1
cascade-delete contract; source relationships `Trip.days` and
`Trip.expenses` carry `cascade: all, delete-orphan`, and `TripDay.activities`
cascades in turn).  Deleting trip `t` removes the trip row, every `TripDay`
with `trip_id = t`, every `Activity` whose day is one of those trip days,
and every `Expense` with `trip_id = t`.  `participant_links` carries no
cascade in the source, so the association rows are left untouched, as are
users and personal expenses. -/
def deleteTrip (s : Store) (t : Nat) : Except DBError Store :=
  if !(s.hasTrip t) then
    .error .NotFound
  else
    .ok { s with
      trips := s.trips.filter (fun v => !(v.id == t)),
      trip_days := s.trip_days.filter (fun d => !(d.trip_id == t)),
      activities := s.activities.filter
        (fun a => !(s.trip_days.any (fun d => d.trip_id == t && d.id == a.day_id))),
      expenses := s.expenses.filter (fun e => !(e.trip_id == t)) }

/-- Modelled from the spec: the delete operation for `TripDay`
(`TripDay.activities` carries `cascade: all, delete-orphan` in the source):
removes the day and every `Activity` with `day_id` equal to it. -/
def deleteTripDay (s : Store) (d : Nat) : Except DBError Store :=
  if !(s.hasTripDay d) then
    .error .NotFound
  else
    .ok { s with
      trip_days := s.trip_days.filter (fun v => !(v.id == d)),
      activities := s.activities.filter (fun a => !(a.day_id == d)) }

/-- Whether user `u` still has dependents that no cascade covers: trips
moderated (`Trip.moderator_id`), expenses paid (`Expense.payer_id`), or
participation links (`TripParticipantLink.user_id`).  None of the
corresponding relationships carries a delete cascade in the source. -/
def Store.userHasDependents (s : Store) (u : Nat) : Bool :=
  s.trips.any (fun t => t.moderator_id == u) ||
  s.expenses.any (fun e => e.payer_id == u) ||
  s.links.any (fun l => l.user_id == u)

/-- Modelled from the spec: the delete operation for `User` (§4.1
cascade-delete and non-cascading contracts; source relationship
`User.personal_expenses` carries `cascade: all, delete-orphan`).  Deleting
a user who still moderates a trip, has paid expenses, or participates via
a link is rejected with `ReferentialIntegrityError`; otherwise the user row
and every `PersonalExpense` with `user_id = u` are removed and no other
table is touched. -/
def deleteUser (s : Store) (u : Nat) : Except DBError Store :=
  if !(s.hasUser u) then
    .error .NotFound
  else if s.userHasDependents u then
    .error .ReferentialIntegrityError
  else
    .ok { s with
      users := s.users.filter (fun v => !(v.id == u)),
      personal_expenses := s.personal_expenses.filter (fun p => !(p.user_id == u)) }

/-- Modelled from the spec: explicit delete of one `Expense` row (§3
lifecycle; removing an expense cascades to nothing). -/
def deleteExpense (s : Store) (e : Nat) : Except DBError Store :=
  if !(s.expenses.any (fun v => v.id == e)) then
    .error .NotFound
  else
    .ok { s with expenses := s.expenses.filter (fun v => !(v.id == e)) }

/-- Modelled from the spec: explicit delete of one `PersonalExpense` row
(§3 lifecycle). -/
def deletePersonalExpense (s : Store) (p : Nat) : Except DBError Store :=
  if !(s.personal_expenses.any (fun v => v.id == p)) then
    .error .NotFound
  else
    .ok { s with personal_expenses := s.personal_expenses.filter (fun v => !(v.id == p)) }

/-- Modelled from the spec: explicit delete of one association row,
identified by its composite key (§3 lifecycle). -/
def deleteTripParticipantLink (s : Store) (t u : Nat) : Except DBError Store :=
  if !(s.links.any (fun l => l.trip_id == t && l.user_id == u)) then
    .error .NotFound
  else
    .ok { s with links := s.links.filter (fun l => !(l.trip_id == t && l.user_id == u)) }

/-- The states reachable from the empty store by the modelled operations
(spec §3 lifecycle: explicit inserts and cascade-honouring deletes). -/
inductive Reachable : Store → Prop where
  | empty : Reachable Store.empty
  | insertUser (s : Store) (u : User) (s' : Store) :
      Reachable s → insertUser s u = .ok s' → Reachable s'
  | insertTrip (s : Store) (t : Trip) (s' : Store) :
      Reachable s → insertTrip s t = .ok s' → Reachable s'
  | insertTripParticipantLink (s : Store) (l : TripParticipantLink) (s' : Store) :
      Reachable s → insertTripParticipantLink s l = .ok s' → Reachable s'
  | insertTripDay (s : Store) (d : TripDay) (s' : Store) :
      Reachable s → insertTripDay s d = .ok s' → Reachable s'
  | insertActivity (s : Store) (a : Activity) (s' : Store) :
      Reachable s → insertActivity s a = .ok s' → Reachable s'
  | insertExpense (s : Store) (e : Expense) (s' : Store) :
      Reachable s → insertExpense s e = .ok s' → Reachable s'
  | insertPersonalExpense (s : Store) (p : PersonalExpense) (s' : Store) :
      Reachable s → insertPersonalExpense s p = .ok s' → Reachable s'
  | deleteTrip (s : Store) (t : Nat) (s' : Store) :
      Reachable s → deleteTrip s t = .ok s' → Reachable s'
  | deleteTripDay (s : Store) (d : Nat) (s' : Store) :
      Reachable s → deleteTripDay s d = .ok s' → Reachable s'
  | deleteUser (s : Store) (u : Nat) (s' : Store) :
      Reachable s → deleteUser s u = .ok s' → Reachable s'
  | deleteExpense (s : Store) (e : Nat) (s' : Store) :
      Reachable s → deleteExpense s e = .ok s' → Reachable s'
  | deletePersonalExpense (s : Store) (p : Nat) (s' : Store) :
      Reachable s → deletePersonalExpense s p = .ok s' → Reachable s'
  | deleteTripParticipantLink (s : Store) (t u : Nat) (s' : Store) :
      Reachable s → deleteTripParticipantLink s t u = .ok s' → Reachable s'

/-- At most one association row per `(trip_id, user_id)` pair: no two
distinct positions of the links table hold the same composite key. -/
def LinksUnique (s : Store) : Prop :=
  s.links.Pairwise (fun a b => ¬(a.trip_id = b.trip_id ∧ a.user_id = b.user_id))

/-- Embeds the stored string values of `TripStatus` in `sqlModels.py`
(`Column(Enum(TripStatus))` stores the member values): the parse direction
of the enum column. -/
def TripStatus.ofString (v : String) : Option TripStatus :=
  if v == "planning" then some .planning
  else if v == "active" then some .active
  else if v == "completed" then some .completed
  else if v == "cancelled" then some .cancelled
  else none

/-- Embeds the stored string values of `UserRole` in `sqlModels.py`. -/
def UserRole.ofString (v : String) : Option UserRole :=
  if v == "moderator" then some .moderator
  else if v == "participant" then some .participant
  else none

/-- Modelled from the spec: writing a trip whose `status` arrives as a raw
string (§4.1: enum fields restrict stored values to the closed set; any
other value fails with a `ValidationError`).  The repository declares the
enum column but no handler; the parse-then-insert path realises the
contract. -/
def insertTripRaw (s : Store) (t : Trip) (rawStatus : String) :
    Except DBError Store :=
  match TripStatus.ofString rawStatus with
  | none => .error .ValidationError
  | some st => insertTrip s { t with status := st }

/-- Embeds `root` of `app.py`: handler body for GET `/`. -/
def root : List (String × String) :=
  [("message", "FastAPI Backend Running")]

/-- Embeds `ConnectionStatus` of `app.py`: handler body for GET `/status`. -/
def ConnectionStatus : List (String × String) :=
  [("message", "FastAPI Backend Connected")]

/-- Embeds the routing of `app.py`: a GET request is dispatched on its
path; the two registered handlers read no state and write none, so the
store is returned unchanged alongside the response body. -/
def handleGet (path : String) (s : Store) :
    Option (Store × List (String × String)) :=
  if path == "/" then some (s, root)
  else if path == "/status" then some (s, ConnectionStatus)
  else none

/-! Sample rows used by concrete scenarios and witnesses. -/

/-- A sample user row (id is reassigned on insert). -/
def aliceRow : User :=
  ⟨0, "alice", "a@x.com", none, none, "pw1", true, 0, 0⟩

/-- A second sample user row with distinct username and email. -/
def bobRow : User :=
  ⟨0, "bob", "b@x.com", none, none, "pw2", true, 0, 0⟩

/-- A sample trip row moderated by user 1 (id is reassigned on insert). -/
def alpsTrip : Trip :=
  ⟨0, "Alps", none, "Chamonix", 10, 20, none, 0, "JOIN123", .planning, 0, 0, 1⟩

/-- A first day of trip 1, numbered 1. -/
def day1Row : TripDay := ⟨0, 1, 10, none, none, 1⟩

/-- A second day of trip 1, also numbered 1 (duplicate day_number). -/
def day2Row : TripDay := ⟨0, 1, 11, none, none, 1⟩

/-- An activity on day 1 whose end_time precedes its start_time. -/
def hikeRow : Activity :=
  ⟨0, "hike", none, 5, some 3, "travel", none, none, 1⟩

/-- The scenario chain for the unenforced-constraints claim: one user, one
trip, two days with equal `day_number`, one activity with
`end_time < start_time`. -/
def c9Chain : Except DBError Store := do
  let s1 ← insertUser Store.empty aliceRow
  let s2 ← insertTrip s1 alpsTrip
  let s3 ← insertTripDay s2 day1Row
  let s4 ← insertTripDay s3 day2Row
  insertActivity s4 hikeRow

/-- C8: GET `/` returns exactly the body with message "FastAPI Backend
Running", GET `/status` exactly the body with message "FastAPI Backend
Connected", each a one-field object, and the store is returned unchanged
(no state change), for every store. -/
theorem handleGet_exact_bodies (s : Store) :
    handleGet "/" s = some (s, [("message", "FastAPI Backend Running")]) ∧
    handleGet "/status" s = some (s, [("message", "FastAPI Backend Connected")]) := by
  exact ⟨rfl, rfl⟩

/-- C9: the schema enforces neither `day_number` uniqueness within a trip
nor `end_time ≥ start_time`: the concrete chain inserting two `TripDay`
rows with the same `trip_id` and equal `day_number`, and an `Activity`
whose `end_time` is strictly earlier than its `start_time`, succeeds. -/
theorem schema_lacks_dayNumber_and_time_constraints :
    c9Chain.toOption.any (fun s =>
      ((s.trip_days.filter (fun d => d.trip_id == 1 && d.day_number == 1)).length == 2) &&
      s.activities.any (fun a => a.end_time.any (fun e => decide (e < a.start_time)))) = true := by
  decide

/-- C7: the enum-typed fields hold closed sets — a raw string parses to a
`TripStatus` exactly when it is one of planning/active/completed/cancelled,
to a `UserRole` exactly when it is moderator/participant — and writing a
trip whose raw status lies outside the set fails with `ValidationError`. -/
theorem enum_fields_closed_sets :
    (∀ v : String, (TripStatus.ofString v).isSome = true ↔
        v = "planning" ∨ v = "active" ∨ v = "completed" ∨ v = "cancelled") ∧
    (∀ v : String, (UserRole.ofString v).isSome = true ↔
        v = "moderator" ∨ v = "participant") ∧
    (∀ (s : Store) (t : Trip) (v : String), TripStatus.ofString v = none →
        insertTripRaw s t v = .error .ValidationError) := by
  refine ⟨fun v => ?_, fun v => ?_, fun s t v h => ?_⟩
  · simp only [TripStatus.ofString, beq_iff_eq]
    split
    · simp_all
    · split
      · simp_all
      · split
        · simp_all
        · split <;> simp_all
  · simp only [UserRole.ofString, beq_iff_eq]
    split
    · simp_all
    · split <;> simp_all
  · simp only [insertTripRaw, h]

/-- Witness for the enum claim: "planning" parses, "archived" does not, and
writing a trip with raw status "archived" fails with `ValidationError`. -/
theorem enum_fields_closed_sets_witness :
    (TripStatus.ofString "planning").isSome = true ∧
    insertTripRaw Store.empty alpsTrip "archived" = .error .ValidationError :=
  ⟨(enum_fields_closed_sets.1 "planning").mpr (Or.inl rfl),
   enum_fields_closed_sets.2.2 Store.empty alpsTrip "archived" rfl⟩

/-- The store holding exactly the inserted alice row. -/
def aliceStore : Store := { Store.empty with users := [{ aliceRow with id := 1 }] }

/-- The store holding alice and one trip she moderates. -/
def tripStore : Store := { aliceStore with trips := [{ alpsTrip with id := 1 }] }

/-- C2: inserting a second `User` with an existing username, or with an
existing email, or a second `Trip` with an existing `invitation_code`,
fails with `UniquenessViolation`.  The failing insert returns no store, so
the table is left unchanged. -/
theorem unique_constraints_reject_duplicates :
    (∀ (s : Store) (u₁ u₂ : User), u₁ ∈ s.users → u₂.username = u₁.username →
        insertUser s u₂ = .error .UniquenessViolation) ∧
    (∀ (s : Store) (u₁ u₂ : User), u₁ ∈ s.users → u₂.email = u₁.email →
        insertUser s u₂ = .error .UniquenessViolation) ∧
    (∀ (s : Store) (t₁ t₂ : Trip), t₁ ∈ s.trips →
        t₂.invitation_code = t₁.invitation_code →
        insertTrip s t₂ = .error .UniquenessViolation) := by
  refine ⟨fun s u₁ u₂ hmem heq => ?_, fun s u₁ u₂ hmem heq => ?_,
          fun s t₁ t₂ hmem heq => ?_⟩
  · have h1 : s.users.any (fun v => v.username == u₂.username) = true := by
      simp only [List.any_eq_true]
      exact ⟨u₁, hmem, by simp [heq]⟩
    simp [insertUser, h1]
  · have h2 : s.users.any (fun v => v.email == u₂.email) = true := by
      simp only [List.any_eq_true]
      exact ⟨u₁, hmem, by simp [heq]⟩
    cases h1 : s.users.any (fun v => v.username == u₂.username) <;>
      simp [insertUser, h1, h2]
  · have h1 : s.trips.any (fun v => v.invitation_code == t₂.invitation_code) = true := by
      simp only [List.any_eq_true]
      exact ⟨t₁, hmem, by simp [heq]⟩
    simp [insertTrip, h1]

/-- Witness for the uniqueness claim: with alice stored, a second user with
username "alice", a second user with email "a@x.com", and with her trip
stored, a second trip with invitation code "JOIN123" are each rejected. -/
theorem unique_constraints_witness :
    insertUser aliceStore ⟨0, "alice", "b@x.com", none, none, "pw", true, 0, 0⟩
      = .error .UniquenessViolation ∧
    insertUser aliceStore ⟨0, "carol", "a@x.com", none, none, "pw", true, 0, 0⟩
      = .error .UniquenessViolation ∧
    insertTrip tripStore { alpsTrip with title := "Alps again" }
      = .error .UniquenessViolation :=
  ⟨unique_constraints_reject_duplicates.1 aliceStore { aliceRow with id := 1 } _
      (by simp [aliceStore]) rfl,
   unique_constraints_reject_duplicates.2.1 aliceStore { aliceRow with id := 1 } _
      (by simp [aliceStore]) rfl,
   unique_constraints_reject_duplicates.2.2 tripStore { alpsTrip with id := 1 } _
      (by simp [tripStore]) rfl⟩

/-- C6: a write whose foreign-key field references a non-existent parent
row fails with `ReferentialIntegrityError`, for every one of the nine
foreign-key fields of the schema: `Trip.moderator_id`,
`TripParticipantLink.trip_id`, `TripParticipantLink.user_id`,
`TripDay.trip_id`, `Activity.day_id`, `Expense.trip_id`,
`Expense.payer_id`, `Expense.activity_id` (when present), and
`PersonalExpense.user_id`.  Where the operation checks a uniqueness
constraint before the foreign keys (trip insert, link insert), the
conjunct assumes that check passes.  The failing write returns no
store. -/
theorem fk_writes_rejected :
    (∀ (s : Store) (t : Trip),
        s.trips.any (fun v => v.invitation_code == t.invitation_code) = false →
        s.hasUser t.moderator_id = false →
        insertTrip s t = .error .ReferentialIntegrityError) ∧
    (∀ (s : Store) (l : TripParticipantLink),
        s.links.any (fun x => x.trip_id == l.trip_id && x.user_id == l.user_id) = false →
        s.hasTrip l.trip_id = false →
        insertTripParticipantLink s l = .error .ReferentialIntegrityError) ∧
    (∀ (s : Store) (l : TripParticipantLink),
        s.links.any (fun x => x.trip_id == l.trip_id && x.user_id == l.user_id) = false →
        s.hasUser l.user_id = false →
        insertTripParticipantLink s l = .error .ReferentialIntegrityError) ∧
    (∀ (s : Store) (d : TripDay), s.hasTrip d.trip_id = false →
        insertTripDay s d = .error .ReferentialIntegrityError) ∧
    (∀ (s : Store) (a : Activity), s.hasTripDay a.day_id = false →
        insertActivity s a = .error .ReferentialIntegrityError) ∧
    (∀ (s : Store) (e : Expense), s.hasTrip e.trip_id = false →
        insertExpense s e = .error .ReferentialIntegrityError) ∧
    (∀ (s : Store) (e : Expense), s.hasUser e.payer_id = false →
        insertExpense s e = .error .ReferentialIntegrityError) ∧
    (∀ (s : Store) (e : Expense) (a : Nat), e.activity_id = some a →
        s.hasActivity a = false →
        insertExpense s e = .error .ReferentialIntegrityError) ∧
    (∀ (s : Store) (p : PersonalExpense), s.hasUser p.user_id = false →
        insertPersonalExpense s p = .error .ReferentialIntegrityError) := by
  refine ⟨fun s t hdup hmod => ?_, fun s l hdup htrip => ?_,
          fun s l hdup huser => ?_, fun s d h => ?_, fun s a h => ?_,
          fun s e h => ?_, fun s e h => ?_, fun s e a ha hmiss => ?_,
          fun s p h => ?_⟩
  · simp [insertTrip, hdup, hmod]
  · simp [insertTripParticipantLink, hdup, htrip]
  · cases hT : s.hasTrip l.trip_id <;>
      simp [insertTripParticipantLink, hdup, hT, huser]
  · simp [insertTripDay, h]
  · simp [insertActivity, h]
  · simp [insertExpense, h]
  · cases hT : s.hasTrip e.trip_id <;> simp [insertExpense, hT, h]
  · cases hT : s.hasTrip e.trip_id <;> cases hU : s.hasUser e.payer_id <;>
      simp [insertExpense, hT, hU, ha, hmiss]
  · simp [insertPersonalExpense, h]

/-- Witness for the foreign-key claim, one write per foreign-key field: on
the empty store a trip naming moderator 1, a link naming trip 1, a trip
day naming trip 1, an activity naming day 1, an expense naming trip 1 and
a personal expense naming user 1 are rejected; with alice and her trip
stored, a link naming user 7, an expense naming payer 7 and an expense
naming activity 5 are rejected. -/
theorem fk_writes_rejected_witness :
    insertTrip Store.empty alpsTrip = .error .ReferentialIntegrityError ∧
    insertTripParticipantLink Store.empty ⟨1, 1, 0, true⟩
      = .error .ReferentialIntegrityError ∧
    insertTripParticipantLink tripStore ⟨1, 7, 0, true⟩
      = .error .ReferentialIntegrityError ∧
    insertTripDay Store.empty day1Row = .error .ReferentialIntegrityError ∧
    insertActivity Store.empty hikeRow = .error .ReferentialIntegrityError ∧
    insertExpense Store.empty ⟨0, "lunch", 10, none, 0, 1, 1, none⟩
      = .error .ReferentialIntegrityError ∧
    insertExpense tripStore ⟨0, "dinner", 12, none, 0, 1, 7, none⟩
      = .error .ReferentialIntegrityError ∧
    insertExpense tripStore ⟨0, "lunch", 10, none, 0, 1, 1, some 5⟩
      = .error .ReferentialIntegrityError ∧
    insertPersonalExpense Store.empty ⟨0, "coffee", none, 3, 0, 1⟩
      = .error .ReferentialIntegrityError :=
  ⟨fk_writes_rejected.1 Store.empty alpsTrip (by decide) (by decide),
   fk_writes_rejected.2.1 Store.empty ⟨1, 1, 0, true⟩ (by decide) (by decide),
   fk_writes_rejected.2.2.1 tripStore ⟨1, 7, 0, true⟩ (by decide) (by decide),
   fk_writes_rejected.2.2.2.1 Store.empty day1Row (by decide),
   fk_writes_rejected.2.2.2.2.1 Store.empty hikeRow (by decide),
   fk_writes_rejected.2.2.2.2.2.1 Store.empty ⟨0, "lunch", 10, none, 0, 1, 1, none⟩
     (by decide),
   fk_writes_rejected.2.2.2.2.2.2.1 tripStore ⟨0, "dinner", 12, none, 0, 1, 7, none⟩
     (by decide),
   fk_writes_rejected.2.2.2.2.2.2.2.1 tripStore ⟨0, "lunch", 10, none, 0, 1, 1, some 5⟩
     5 rfl (by decide),
   fk_writes_rejected.2.2.2.2.2.2.2.2 Store.empty ⟨0, "coffee", none, 3, 0, 1⟩
     (by decide)⟩

/-- A populated store: alice (id 1) moderates trip 1, participates via one
link, trip 1 has one day, one activity on that day, one expense paid by
alice, and alice has one personal expense. -/
def fullStore : Store :=
  { users := [{ aliceRow with id := 1 }],
    trips := [{ alpsTrip with id := 1 }],
    links := [⟨1, 1, 0, true⟩],
    trip_days := [{ day1Row with id := 1 }],
    activities := [{ hikeRow with id := 1 }],
    expenses := [⟨1, "lunch", 10, none, 0, 1, 1, none⟩],
    personal_expenses := [⟨1, "coffee", none, 3, 0, 1⟩] }

/-- `fullStore` after deleting trip 1: the trip, its day, the day's
activity and the trip's expense are gone; users, links and personal
expenses remain. -/
def fullStoreAfter : Store :=
  { fullStore with trips := [], trip_days := [], activities := [], expenses := [] }

/-- C1: deleting trip `t` removes exactly the trip row, every `TripDay`
with `trip_id = t`, every `Activity` belonging to one of those trip days,
and every `Expense` with `trip_id = t`; the only failure is `NotFound`, and
a failing delete returns no store at all, so the removal is
all-or-nothing. -/
theorem deleteTrip_cascade_atomic (s : Store) (t : Nat) :
    (∀ s', deleteTrip s t = .ok s' →
      s'.trips = s.trips.filter (fun v => !(v.id == t)) ∧
      s'.trip_days = s.trip_days.filter (fun d => !(d.trip_id == t)) ∧
      s'.activities = s.activities.filter
        (fun a => !(s.trip_days.any (fun d => d.trip_id == t && d.id == a.day_id))) ∧
      s'.expenses = s.expenses.filter (fun e => !(e.trip_id == t))) ∧
    (∀ err, deleteTrip s t = .error err → err = .NotFound) := by
  constructor
  · intro s' h
    unfold deleteTrip at h
    split at h
    · exact Except.noConfusion h
    · injection h with h
      subst h
      exact ⟨rfl, rfl, rfl, rfl⟩
  · intro err h
    unfold deleteTrip at h
    split at h
    · injection h with h
      exact h.symm
    · exact Except.noConfusion h

/-- Witness for the trip-cascade claim: deleting trip 1 from the populated
store empties exactly the trips, trip days, activities and expenses
tables, and deleting from the empty store fails with `NotFound`. -/
theorem deleteTrip_cascade_atomic_witness :
    (fullStoreAfter.trips = fullStore.trips.filter (fun v => !(v.id == 1)) ∧
     fullStoreAfter.trip_days = fullStore.trip_days.filter (fun d => !(d.trip_id == 1)) ∧
     fullStoreAfter.activities = fullStore.activities.filter
       (fun a => !(fullStore.trip_days.any (fun d => d.trip_id == 1 && d.id == a.day_id))) ∧
     fullStoreAfter.expenses = fullStore.expenses.filter (fun e => !(e.trip_id == 1))) ∧
    DBError.NotFound = DBError.NotFound :=
  ⟨(deleteTrip_cascade_atomic fullStore 1).1 fullStoreAfter rfl,
   (deleteTrip_cascade_atomic Store.empty 1).2 .NotFound rfl⟩

/-- The store holding bob (id 1) and one personal expense of his. -/
def bobStore : Store :=
  { Store.empty with
    users := [{ bobRow with id := 1 }],
    personal_expenses := [⟨1, "coffee", none, 3, 0, 1⟩] }

/-- `bobStore` after deleting user 1. -/
def bobStoreAfter : Store :=
  { bobStore with users := [], personal_expenses := [] }

/-- C4: a successful delete of user `u` removes the user row and exactly
the `PersonalExpense` rows with `user_id = u`, and touches no other table
— the cascade removes nothing else. -/
theorem deleteUser_personalExpense_cascade (s : Store) (u : Nat) :
    ∀ s', deleteUser s u = .ok s' →
      s'.users = s.users.filter (fun v => !(v.id == u)) ∧
      s'.personal_expenses = s.personal_expenses.filter (fun p => !(p.user_id == u)) ∧
      s'.trips = s.trips ∧ s'.links = s.links ∧ s'.trip_days = s.trip_days ∧
      s'.activities = s.activities ∧ s'.expenses = s.expenses := by
  intro s' h
  unfold deleteUser at h
  split at h
  · exact Except.noConfusion h
  · split at h
    · exact Except.noConfusion h
    · injection h with h
      subst h
      exact ⟨rfl, rfl, rfl, rfl, rfl, rfl, rfl⟩

/-- Witness for the user-cascade claim: deleting bob removes his row and
his personal expense and leaves every other table as it was. -/
theorem deleteUser_personalExpense_cascade_witness :
    bobStoreAfter.users = bobStore.users.filter (fun v => !(v.id == 1)) ∧
    bobStoreAfter.personal_expenses
      = bobStore.personal_expenses.filter (fun p => !(p.user_id == 1)) ∧
    bobStoreAfter.trips = bobStore.trips ∧ bobStoreAfter.links = bobStore.links ∧
    bobStoreAfter.trip_days = bobStore.trip_days ∧
    bobStoreAfter.activities = bobStore.activities ∧
    bobStoreAfter.expenses = bobStore.expenses :=
  deleteUser_personalExpense_cascade bobStore 1 bobStoreAfter rfl

/-- C5: deleting a trip leaves the users table (moderator and participants)
and the personal expenses untouched; and deleting a user who still
moderates a trip, has paid expenses, or participates via a link is
rejected with `ReferentialIntegrityError` — those dependent rows are never
deleted automatically. -/
theorem user_rows_not_cascaded (s : Store) :
    (∀ (t : Nat) (s' : Store), deleteTrip s t = .ok s' →
        s'.users = s.users ∧ s'.personal_expenses = s.personal_expenses) ∧
    (∀ u : Nat, s.hasUser u = true →
        (s.trips.any (fun t => t.moderator_id == u) = true ∨
         s.expenses.any (fun e => e.payer_id == u) = true ∨
         s.links.any (fun l => l.user_id == u) = true) →
        deleteUser s u = .error .ReferentialIntegrityError) := by
  constructor
  · intro t s' h
    unfold deleteTrip at h
    split at h
    · exact Except.noConfusion h
    · injection h with h
      subst h
      exact ⟨rfl, rfl⟩
  · intro u hu hdep
    have hd : s.userHasDependents u = true := by
      unfold Store.userHasDependents
      rcases hdep with h | h | h <;> simp [h]
    simp [deleteUser, hu, hd]

/-- Witness for the non-cascading claim: deleting trip 1 from the populated
store keeps alice's row and her personal expense, and deleting alice —
who moderates trip 1 — is rejected. -/
theorem user_rows_not_cascaded_witness :
    (fullStoreAfter.users = fullStore.users ∧
     fullStoreAfter.personal_expenses = fullStore.personal_expenses) ∧
    deleteUser fullStore 1 = .error .ReferentialIntegrityError :=
  ⟨(user_rows_not_cascaded fullStore).1 1 fullStoreAfter rfl,
   (user_rows_not_cascaded fullStore).2 1 (by decide) (Or.inl (by decide))⟩

/-- C10: no cascade is configured on `Trip.participant_links`, so deleting
a trip leaves the association table exactly as it was — in particular
every link row whose `trip_id` named the deleted trip is still present. -/
theorem deleteTrip_keeps_participant_links (s : Store) (t : Nat) :
    ∀ s', deleteTrip s t = .ok s' →
      s'.links = s.links ∧ ∀ l ∈ s.links, l.trip_id = t → l ∈ s'.links := by
  intro s' h
  unfold deleteTrip at h
  split at h
  · exact Except.noConfusion h
  · injection h with h
    subst h
    exact ⟨rfl, fun l hl _ => hl⟩

/-- Witness for the link-frame claim: after deleting trip 1, the links
table is unchanged and the link (1, 1) is still stored. -/
theorem deleteTrip_keeps_participant_links_witness :
    fullStoreAfter.links = fullStore.links ∧
    (⟨1, 1, 0, true⟩ : TripParticipantLink) ∈ fullStoreAfter.links :=
  ⟨(deleteTrip_keeps_participant_links fullStore 1 fullStoreAfter rfl).1,
   (deleteTrip_keeps_participant_links fullStore 1 fullStoreAfter rfl).2
     ⟨1, 1, 0, true⟩ (by decide) rfl⟩

/-! Projection lemmas: how each successful operation changes the links
table.  Every operation except the two that target the association table
leaves it untouched. -/

theorem links_insertUser_ok {s : Store} {u : User} {s' : Store}
    (h : insertUser s u = .ok s') : s'.links = s.links := by
  unfold insertUser at h
  repeat' split at h
  all_goals first
    | exact Except.noConfusion h
    | (injection h with h; subst h; rfl)

theorem links_insertTrip_ok {s : Store} {t : Trip} {s' : Store}
    (h : insertTrip s t = .ok s') : s'.links = s.links := by
  unfold insertTrip at h
  repeat' split at h
  all_goals first
    | exact Except.noConfusion h
    | (injection h with h; subst h; rfl)

theorem links_insertTripDay_ok {s : Store} {d : TripDay} {s' : Store}
    (h : insertTripDay s d = .ok s') : s'.links = s.links := by
  unfold insertTripDay at h
  repeat' split at h
  all_goals first
    | exact Except.noConfusion h
    | (injection h with h; subst h; rfl)

theorem links_insertActivity_ok {s : Store} {a : Activity} {s' : Store}
    (h : insertActivity s a = .ok s') : s'.links = s.links := by
  unfold insertActivity at h
  repeat' split at h
  all_goals first
    | exact Except.noConfusion h
    | (injection h with h; subst h; rfl)

theorem links_insertExpense_ok {s : Store} {e : Expense} {s' : Store}
    (h : insertExpense s e = .ok s') : s'.links = s.links := by
  unfold insertExpense at h
  repeat' split at h
  all_goals first
    | exact Except.noConfusion h
    | (injection h with h; subst h; rfl)

theorem links_insertPersonalExpense_ok {s : Store} {p : PersonalExpense} {s' : Store}
    (h : insertPersonalExpense s p = .ok s') : s'.links = s.links := by
  unfold insertPersonalExpense at h
  repeat' split at h
  all_goals first
    | exact Except.noConfusion h
    | (injection h with h; subst h; rfl)

theorem links_deleteTrip_ok {s : Store} {t : Nat} {s' : Store}
    (h : deleteTrip s t = .ok s') : s'.links = s.links := by
  unfold deleteTrip at h
  repeat' split at h
  all_goals first
    | exact Except.noConfusion h
    | (injection h with h; subst h; rfl)

theorem links_deleteTripDay_ok {s : Store} {d : Nat} {s' : Store}
    (h : deleteTripDay s d = .ok s') : s'.links = s.links := by
  unfold deleteTripDay at h
  repeat' split at h
  all_goals first
    | exact Except.noConfusion h
    | (injection h with h; subst h; rfl)

theorem links_deleteUser_ok {s : Store} {u : Nat} {s' : Store}
    (h : deleteUser s u = .ok s') : s'.links = s.links := by
  unfold deleteUser at h
  repeat' split at h
  all_goals first
    | exact Except.noConfusion h
    | (injection h with h; subst h; rfl)

theorem links_deleteExpense_ok {s : Store} {e : Nat} {s' : Store}
    (h : deleteExpense s e = .ok s') : s'.links = s.links := by
  unfold deleteExpense at h
  repeat' split at h
  all_goals first
    | exact Except.noConfusion h
    | (injection h with h; subst h; rfl)

theorem links_deletePersonalExpense_ok {s : Store} {p : Nat} {s' : Store}
    (h : deletePersonalExpense s p = .ok s') : s'.links = s.links := by
  unfold deletePersonalExpense at h
  repeat' split at h
  all_goals first
    | exact Except.noConfusion h
    | (injection h with h; subst h; rfl)

theorem links_insertTripParticipantLink_ok {s : Store} {l : TripParticipantLink}
    {s' : Store} (h : insertTripParticipantLink s l = .ok s') :
    s'.links = s.links ++ [l] ∧
    s.links.any (fun x => x.trip_id == l.trip_id && x.user_id == l.user_id) = false := by
  unfold insertTripParticipantLink at h
  split at h
  · exact Except.noConfusion h
  · rename_i hg
    split at h
    · exact Except.noConfusion h
    · split at h
      · exact Except.noConfusion h
      · injection h with h
        subst h
        exact ⟨rfl, by simpa using hg⟩

theorem links_deleteTripParticipantLink_ok {s : Store} {t u : Nat} {s' : Store}
    (h : deleteTripParticipantLink s t u = .ok s') :
    s'.links = s.links.filter (fun l => !(l.trip_id == t && l.user_id == u)) := by
  unfold deleteTripParticipantLink at h
  split at h
  · exact Except.noConfusion h
  · injection h with h
    subst h
    rfl

/-- The store holding alice, her trip, and her participation link. -/
def linkStore : Store := { tripStore with links := [⟨1, 1, 0, true⟩] }

/-- C3: in every reachable state the association table holds at most one
row per `(trip_id, user_id)` pair — the composite primary key — and
inserting a second link with an already-present pair is rejected with
`UniquenessViolation`. -/
theorem linksUnique_invariant :
    (∀ s, Reachable s → LinksUnique s) ∧
    (∀ (s : Store) (l₁ l₂ : TripParticipantLink), l₁ ∈ s.links →
      l₂.trip_id = l₁.trip_id → l₂.user_id = l₁.user_id →
      insertTripParticipantLink s l₂ = .error .UniquenessViolation) := by
  constructor
  · intro s hr
    induction hr with
    | empty => exact List.Pairwise.nil
    | insertUser s u s' _ h ih =>
        unfold LinksUnique at *
        rw [links_insertUser_ok h]; exact ih
    | insertTrip s t s' _ h ih =>
        unfold LinksUnique at *
        rw [links_insertTrip_ok h]; exact ih
    | insertTripDay s d s' _ h ih =>
        unfold LinksUnique at *
        rw [links_insertTripDay_ok h]; exact ih
    | insertActivity s a s' _ h ih =>
        unfold LinksUnique at *
        rw [links_insertActivity_ok h]; exact ih
    | insertExpense s e s' _ h ih =>
        unfold LinksUnique at *
        rw [links_insertExpense_ok h]; exact ih
    | insertPersonalExpense s p s' _ h ih =>
        unfold LinksUnique at *
        rw [links_insertPersonalExpense_ok h]; exact ih
    | deleteTrip s t s' _ h ih =>
        unfold LinksUnique at *
        rw [links_deleteTrip_ok h]; exact ih
    | deleteTripDay s d s' _ h ih =>
        unfold LinksUnique at *
        rw [links_deleteTripDay_ok h]; exact ih
    | deleteUser s u s' _ h ih =>
        unfold LinksUnique at *
        rw [links_deleteUser_ok h]; exact ih
    | deleteExpense s e s' _ h ih =>
        unfold LinksUnique at *
        rw [links_deleteExpense_ok h]; exact ih
    | deletePersonalExpense s p s' _ h ih =>
        unfold LinksUnique at *
        rw [links_deletePersonalExpense_ok h]; exact ih
    | deleteTripParticipantLink s t u s' _ h ih =>
        unfold LinksUnique at *
        rw [links_deleteTripParticipantLink_ok h]
        exact ih.filter _
    | insertTripParticipantLink s l s' _ h ih =>
        unfold LinksUnique at *
        obtain ⟨hl, hguard⟩ := links_insertTripParticipantLink_ok h
        rw [hl, List.pairwise_append]
        refine ⟨ih, by simp, ?_⟩
        intro a ha b hb
        have hb' : b = l := by simpa using hb
        subst hb'
        simp only [List.any_eq_false] at hguard
        intro hab
        exact absurd (by simp [hab.1, hab.2]) (hguard a ha)
  · intro s l₁ l₂ hmem ht hu
    have h1 : s.links.any
        (fun x => x.trip_id == l₂.trip_id && x.user_id == l₂.user_id) = true := by
      simp only [List.any_eq_true]
      exact ⟨l₁, hmem, by simp [ht, hu]⟩
    simp [insertTripParticipantLink, h1]

/-- Witness for the link-uniqueness claim: the store reached by inserting
alice, her trip and her link satisfies the invariant, and a second link
for the pair (1, 1) is rejected. -/
theorem linksUnique_invariant_witness :
    LinksUnique linkStore ∧
    insertTripParticipantLink linkStore ⟨1, 1, 5, false⟩
      = .error .UniquenessViolation :=
  ⟨linksUnique_invariant.1 linkStore
     (Reachable.insertTripParticipantLink tripStore ⟨1, 1, 0, true⟩ linkStore
       (Reachable.insertTrip aliceStore alpsTrip tripStore
         (Reachable.insertUser Store.empty aliceRow aliceStore
           Reachable.empty rfl) rfl) rfl),
   linksUnique_invariant.2 linkStore ⟨1, 1, 0, true⟩ ⟨1, 1, 5, false⟩
     (by decide) rfl rfl⟩

end BudgetBuddy
